import Mathlib

/-!
Shallow embedding of the `useSupabaseState` hook: a local, optimistically
updated replica of four remote collections (raiders, raid_history,
loot_history, scheduled_raids) with snake_case/camelCase transcoders, a
realtime change-event integrator guarded by an echo-suppression flag
(`saving`), a parallel bootstrap loader, and one optimistic mutation
coordinator per operation.

JavaScript values are modelled by `Value`; a field holding `Value.undef`
models an absent / `undefined` field (matching the code's
`!== undefined` guards), `Value.vNull` models `null`.  Remote calls are
modelled by a `RemoteResult` parameter: `ok` (resolved, no error),
`err m` (resolved with `{ error: { message: m } }`), `thrown m` (the
awaited promise rejected, so the rest of the async function body is
skipped).  `new Date().toISOString()` is modelled by an explicit `now`
parameter, and date parsing in the scheduled-raid sort comparator by an
explicit `dateKey` parameter.
-/

namespace Sunken

/-- A JavaScript value as used by the hook: primitives, arrays, `null`,
and `undefined` (absent field). -/
inductive Value where
  | undef
  | vNull
  | vBool (b : Bool)
  | vNum (n : Int)
  | vStr (s : String)
  | vArr (xs : List Value)

mutual

/-- Structural decidable equality on `Value` (models `===` on the primitive
identifiers and payloads the hook compares). -/
def Value.decEq : (a b : Value) → Decidable (a = b)
  | .undef, .undef => isTrue rfl
  | .undef, .vNull => isFalse (fun h => Value.noConfusion h)
  | .undef, .vBool _ => isFalse (fun h => Value.noConfusion h)
  | .undef, .vNum _ => isFalse (fun h => Value.noConfusion h)
  | .undef, .vStr _ => isFalse (fun h => Value.noConfusion h)
  | .undef, .vArr _ => isFalse (fun h => Value.noConfusion h)
  | .vNull, .undef => isFalse (fun h => Value.noConfusion h)
  | .vNull, .vNull => isTrue rfl
  | .vNull, .vBool _ => isFalse (fun h => Value.noConfusion h)
  | .vNull, .vNum _ => isFalse (fun h => Value.noConfusion h)
  | .vNull, .vStr _ => isFalse (fun h => Value.noConfusion h)
  | .vNull, .vArr _ => isFalse (fun h => Value.noConfusion h)
  | .vBool _, .undef => isFalse (fun h => Value.noConfusion h)
  | .vBool _, .vNull => isFalse (fun h => Value.noConfusion h)
  | .vBool a, .vBool b =>
    if h : a = b then isTrue (by rw [h]) else
      isFalse (fun hh => h (Value.vBool.inj hh))
  | .vBool _, .vNum _ => isFalse (fun h => Value.noConfusion h)
  | .vBool _, .vStr _ => isFalse (fun h => Value.noConfusion h)
  | .vBool _, .vArr _ => isFalse (fun h => Value.noConfusion h)
  | .vNum _, .undef => isFalse (fun h => Value.noConfusion h)
  | .vNum _, .vNull => isFalse (fun h => Value.noConfusion h)
  | .vNum _, .vBool _ => isFalse (fun h => Value.noConfusion h)
  | .vNum a, .vNum b =>
    if h : a = b then isTrue (by rw [h]) else
      isFalse (fun hh => h (Value.vNum.inj hh))
  | .vNum _, .vStr _ => isFalse (fun h => Value.noConfusion h)
  | .vNum _, .vArr _ => isFalse (fun h => Value.noConfusion h)
  | .vStr _, .undef => isFalse (fun h => Value.noConfusion h)
  | .vStr _, .vNull => isFalse (fun h => Value.noConfusion h)
  | .vStr _, .vBool _ => isFalse (fun h => Value.noConfusion h)
  | .vStr _, .vNum _ => isFalse (fun h => Value.noConfusion h)
  | .vStr a, .vStr b =>
    if h : a = b then isTrue (by rw [h]) else
      isFalse (fun hh => h (Value.vStr.inj hh))
  | .vStr _, .vArr _ => isFalse (fun h => Value.noConfusion h)
  | .vArr _, .undef => isFalse (fun h => Value.noConfusion h)
  | .vArr _, .vNull => isFalse (fun h => Value.noConfusion h)
  | .vArr _, .vBool _ => isFalse (fun h => Value.noConfusion h)
  | .vArr _, .vNum _ => isFalse (fun h => Value.noConfusion h)
  | .vArr _, .vStr _ => isFalse (fun h => Value.noConfusion h)
  | .vArr xs, .vArr ys =>
    match Value.decEqList xs ys with
    | isTrue h => isTrue (by rw [h])
    | isFalse h => isFalse (fun hh => h (Value.vArr.inj hh))

/-- Decidable equality on lists of `Value`s, elementwise. -/
def Value.decEqList : (xs ys : List Value) → Decidable (xs = ys)
  | [], [] => isTrue rfl
  | [], _ :: _ => isFalse (fun h => List.noConfusion h)
  | _ :: _, [] => isFalse (fun h => List.noConfusion h)
  | x :: xs, y :: ys =>
    match Value.decEq x y with
    | isFalse h1 => isFalse (fun hh => h1 (List.cons.inj hh).1)
    | isTrue h1 =>
      match Value.decEqList xs ys with
      | isTrue h2 => isTrue (by rw [h1, h2])
      | isFalse h2 => isFalse (fun hh => h2 (List.cons.inj hh).2)

end

instance : DecidableEq Value := Value.decEq

/-- JavaScript truthiness: `undefined`, `null`, `false`, `0`, `""` are
falsy; arrays (even empty ones) are truthy. -/
def Value.truthy : Value → Bool
  | .undef => false
  | .vNull => false
  | .vBool b => b
  | .vNum n => n != 0
  | .vStr s => s != ""
  | .vArr _ => true

/-- JavaScript `a || b`. -/
def jsOr (a b : Value) : Value := if a.truthy then a else b

/-- JavaScript `a ?? b` (nullish coalescing). -/
def jsNullish (a b : Value) : Value :=
  if a = Value.undef ∨ a = Value.vNull then b else a

/-- Spread-merge of one field, `{...r, ...updates}`: the update value wins
when the field is present in the update object. -/
def spreadField (old new : Value) : Value :=
  if new = Value.undef then old else new

/-! ### Record shapes

One structure per collection for the in-memory (camelCase) form and one
for the wire (snake_case) form, with exactly the fields the hook touches.
-/

/-- In-memory raider record (camelCase form). -/
structure Raider where
  id : Value
  name : Value
  «class» : Value
  rank : Value
  dkp : Value
  raidCount : Value
  createdAt : Value
  deriving DecidableEq

/-- Wire raider row (snake_case form). -/
structure DbRaider where
  id : Value
  name : Value
  «class» : Value
  rank : Value
  dkp : Value
  raid_count : Value
  created_at : Value
  deriving DecidableEq

/-- In-memory raid-history record. -/
structure Raid where
  id : Value
  raidType : Value
  bossesKilled : Value
  progBosses : Value
  participants : Value
  dkpAwarded : Value
  warcraftLogsUrl : Value
  completedAt : Value
  editHistory : Value
  deriving DecidableEq

/-- Wire raid-history row. -/
structure DbRaid where
  id : Value
  raid_type : Value
  bosses_killed : Value
  prog_bosses : Value
  participants : Value
  dkp_awarded : Value
  warcraft_logs_url : Value
  completed_at : Value
  edit_history : Value
  deriving DecidableEq

/-- In-memory loot-history record. -/
structure Loot where
  id : Value
  raidId : Value
  itemName : Value
  wowheadId : Value
  winnerId : Value
  category : Value
  isBis : Value
  dkpCost : Value
  timestamp : Value
  deriving DecidableEq

/-- Wire loot-history row. -/
structure DbLoot where
  id : Value
  raid_id : Value
  item_name : Value
  wowhead_id : Value
  winner_id : Value
  category : Value
  is_bis : Value
  dkp_cost : Value
  timestamp : Value
  deriving DecidableEq

/-- In-memory scheduled-raid record. -/
structure Scheduled where
  id : Value
  raidType : Value
  dateTime : Value
  notes : Value
  roster : Value
  createdAt : Value
  deriving DecidableEq

/-- Wire scheduled-raid row. -/
structure DbScheduled where
  id : Value
  raid_type : Value
  date_time : Value
  note : Value
  roster : Value
  created_at : Value
  deriving DecidableEq

/-! ### Transcoders (snake_case <-> camelCase) -/

def transformRaiderFromDb (r : DbRaider) : Raider :=
  { id := r.id
    name := r.name
    «class» := r.«class»
    rank := r.rank
    dkp := r.dkp
    raidCount := r.raid_count
    createdAt := r.created_at }

def transformRaiderToDb (now : Value) (r : Raider) : DbRaider :=
  { id := r.id
    name := r.name
    «class» := r.«class»
    rank := r.rank
    dkp := r.dkp
    raid_count := jsNullish r.raidCount (Value.vNum 0)
    created_at := jsNullish r.createdAt now }

def transformRaidFromDb (r : DbRaid) : Raid :=
  { id := r.id
    raidType := r.raid_type
    bossesKilled := jsOr r.bosses_killed (Value.vArr [])
    progBosses := jsOr r.prog_bosses (Value.vArr [])
    participants := jsOr r.participants (Value.vArr [])
    dkpAwarded := r.dkp_awarded
    warcraftLogsUrl := jsOr r.warcraft_logs_url (Value.vStr "")
    completedAt := r.completed_at
    editHistory := jsOr r.edit_history (Value.vArr []) }

/-- Note: the source object literal has no `edit_history` key, so the wire
row it builds carries `undefined` there. -/
def transformRaidToDb (now : Value) (r : Raid) : DbRaid :=
  { id := r.id
    raid_type := r.raidType
    bosses_killed := jsOr r.bossesKilled (Value.vArr [])
    prog_bosses := jsOr r.progBosses (Value.vArr [])
    participants := jsOr r.participants (Value.vArr [])
    dkp_awarded := jsNullish r.dkpAwarded (Value.vBool false)
    warcraft_logs_url := jsOr r.warcraftLogsUrl Value.vNull
    completed_at := jsNullish r.completedAt now
    edit_history := Value.undef }

def transformLootFromDb (l : DbLoot) : Loot :=
  { id := l.id
    raidId := l.raid_id
    itemName := l.item_name
    wowheadId := l.wowhead_id
    winnerId := l.winner_id
    category := l.category
    isBis := l.is_bis
    dkpCost := l.dkp_cost
    timestamp := l.timestamp }

def transformLootToDb (now : Value) (l : Loot) : DbLoot :=
  { id := l.id
    raid_id := jsOr l.raidId Value.vNull
    item_name := l.itemName
    wowhead_id := jsOr l.wowheadId Value.vNull
    winner_id := l.winnerId
    category := l.category
    is_bis := jsNullish l.isBis (Value.vBool true)
    dkp_cost := jsNullish l.dkpCost (Value.vNum 0)
    timestamp := jsNullish l.timestamp now }

def transformScheduledFromDb (s : DbScheduled) : Scheduled :=
  { id := s.id
    raidType := s.raid_type
    dateTime := s.date_time
    notes := jsOr s.note (Value.vStr "")
    roster := jsOr s.roster (Value.vArr [])
    createdAt := s.created_at }

def transformScheduledToDb (now : Value) (s : Scheduled) : DbScheduled :=
  { id := s.id
    raid_type := s.raidType
    date_time := s.dateTime
    note := jsOr s.notes Value.vNull
    roster := jsOr s.roster (Value.vArr [])
    created_at := jsNullish s.createdAt now }

/-! ### Hook state

The `useState`/`useRef` cells of the hook, as one record.  `saving` is the
echo-suppression flag (`saving.current`), `error` the shared error slot
(`none` models `null`). -/

structure DkpState where
  raiders : List Raider
  raidHistory : List Raid
  lootHistory : List Loot
  scheduled : List Scheduled
  loading : Bool
  error : Option String
  saving : Bool
  deriving DecidableEq

/-- State at mount: `useState([])` four times, `useState(true)`,
`useState(null)`, `useRef(false)`. -/
def initialState : DkpState :=
  { raiders := []
    raidHistory := []
    lootHistory := []
    scheduled := []
    loading := true
    error := none
    saving := false }

/-- Outcome of one awaited remote call: resolved without error, resolved
with `{ error: { message } }`, or rejected (the `await` throws and the rest
of the async function body never runs). -/
inductive RemoteResult where
  | ok
  | err (msg : String)
  | thrown (msg : String)
  deriving DecidableEq

def RemoteResult.isErr : RemoteResult → Bool
  | .err _ => true
  | _ => false

def RemoteResult.isThrown : RemoteResult → Bool
  | .thrown _ => true
  | _ => false

/-- `e.error.message` on a result already filtered to carry an error. -/
def RemoteResult.errMessage : RemoteResult → String
  | .err m => m
  | _ => ""

/-! ### Update payloads and sparse patches

Update payloads carry `Value.undef` for fields the caller did not define,
matching the code's `updates.f !== undefined` guards.  The sparse patch
sent to the remote side (`dbUpdates` object built key by key) is modelled
as an association list of column name to value. -/

/-- Payload of `updateRaider(id, updates)` / one element of
`bulkUpdateRaiders` (there with `id` defined). -/
structure RaiderUpdates where
  id : Value := Value.undef
  name : Value := Value.undef
  «class» : Value := Value.undef
  rank : Value := Value.undef
  dkp : Value := Value.undef
  raidCount : Value := Value.undef
  createdAt : Value := Value.undef
  deriving DecidableEq

/-- `{...r, ...updates}` for a raider. -/
def mergeRaiderUpdates (r : Raider) (u : RaiderUpdates) : Raider :=
  { id := spreadField r.id u.id
    name := spreadField r.name u.name
    «class» := spreadField r.«class» u.«class»
    rank := spreadField r.rank u.rank
    dkp := spreadField r.dkp u.dkp
    raidCount := spreadField r.raidCount u.raidCount
    createdAt := spreadField r.createdAt u.createdAt }

/-- The `dbUpdates` object built by `updateRaider`: one `if (... !==
undefined)` per transmitted column. -/
def raiderDbUpdates (u : RaiderUpdates) : List (String × Value) :=
  (if u.name ≠ Value.undef then [("name", u.name)] else []) ++
  (if u.«class» ≠ Value.undef then [("class", u.«class»)] else []) ++
  (if u.rank ≠ Value.undef then [("rank", u.rank)] else []) ++
  (if u.dkp ≠ Value.undef then [("dkp", u.dkp)] else []) ++
  (if u.raidCount ≠ Value.undef then [("raid_count", u.raidCount)] else [])

/-- The `dbFields` object built per element of `bulkUpdateRaiders` (same
five columns, different build order). -/
def bulkRaiderDbFields (u : RaiderUpdates) : List (String × Value) :=
  (if u.dkp ≠ Value.undef then [("dkp", u.dkp)] else []) ++
  (if u.raidCount ≠ Value.undef then [("raid_count", u.raidCount)] else []) ++
  (if u.rank ≠ Value.undef then [("rank", u.rank)] else []) ++
  (if u.name ≠ Value.undef then [("name", u.name)] else []) ++
  (if u.«class» ≠ Value.undef then [("class", u.«class»)] else [])

/-- Payload of `updateRaid(id, updates)`. -/
structure RaidUpdates where
  id : Value := Value.undef
  raidType : Value := Value.undef
  bossesKilled : Value := Value.undef
  progBosses : Value := Value.undef
  participants : Value := Value.undef
  dkpAwarded : Value := Value.undef
  warcraftLogsUrl : Value := Value.undef
  completedAt : Value := Value.undef
  editHistory : Value := Value.undef
  deriving DecidableEq

/-- `{...r, ...updates}` for a raid. -/
def mergeRaidUpdates (r : Raid) (u : RaidUpdates) : Raid :=
  { id := spreadField r.id u.id
    raidType := spreadField r.raidType u.raidType
    bossesKilled := spreadField r.bossesKilled u.bossesKilled
    progBosses := spreadField r.progBosses u.progBosses
    participants := spreadField r.participants u.participants
    dkpAwarded := spreadField r.dkpAwarded u.dkpAwarded
    warcraftLogsUrl := spreadField r.warcraftLogsUrl u.warcraftLogsUrl
    completedAt := spreadField r.completedAt u.completedAt
    editHistory := spreadField r.editHistory u.editHistory }

/-- The `dbUpdates` object built by `updateRaid`. -/
def raidDbUpdates (u : RaidUpdates) : List (String × Value) :=
  (if u.bossesKilled ≠ Value.undef then [("bosses_killed", u.bossesKilled)] else []) ++
  (if u.progBosses ≠ Value.undef then [("prog_bosses", u.progBosses)] else []) ++
  (if u.participants ≠ Value.undef then [("participants", u.participants)] else []) ++
  (if u.dkpAwarded ≠ Value.undef then [("dkp_awarded", u.dkpAwarded)] else [])

/-- Payload of `updateScheduledRaid(id, updates)`. -/
structure ScheduledUpdates where
  id : Value := Value.undef
  raidType : Value := Value.undef
  dateTime : Value := Value.undef
  notes : Value := Value.undef
  roster : Value := Value.undef
  createdAt : Value := Value.undef
  deriving DecidableEq

/-- `{...r, ...updates}` for a scheduled raid. -/
def mergeScheduledUpdates (r : Scheduled) (u : ScheduledUpdates) : Scheduled :=
  { id := spreadField r.id u.id
    raidType := spreadField r.raidType u.raidType
    dateTime := spreadField r.dateTime u.dateTime
    notes := spreadField r.notes u.notes
    roster := spreadField r.roster u.roster
    createdAt := spreadField r.createdAt u.createdAt }

/-- The `dbUpdates` object built by `updateScheduledRaid`. -/
def scheduledDbUpdates (u : ScheduledUpdates) : List (String × Value) :=
  (if u.raidType ≠ Value.undef then [("raid_type", u.raidType)] else []) ++
  (if u.dateTime ≠ Value.undef then [("date_time", u.dateTime)] else []) ++
  (if u.notes ≠ Value.undef then [("note", u.notes)] else []) ++
  (if u.roster ≠ Value.undef then [("roster", u.roster)] else [])

/-! ### Optimistic mutation coordinator

Each async mutation is embedded as a pure function from the awaited remote
result and the pre-state to the post-state.  On `RemoteResult.thrown` the
statements after the `await` (in particular `saving.current = false`) are
skipped, so the observable state is the one at the throw point. -/

/-- `addRaider(raider)`. -/
def addRaider (remote : RemoteResult) (raider : Raider) (s : DkpState) : DkpState :=
  let s := { s with error := none }
  let s := { s with raiders := s.raiders ++ [raider] }
  let s := { s with saving := true }
  match remote with
  | .thrown _ => s
  | .ok => { s with saving := false }
  | .err m =>
    { s with saving := false, error := some m,
             raiders := s.raiders.filter (fun r => r.id ≠ raider.id) }

/-- `updateRaider(id, updates)`. -/
def updateRaider (remote : RemoteResult) (id : Value) (updates : RaiderUpdates)
    (s : DkpState) : DkpState :=
  let s := { s with error := none }
  let s := { s with
    raiders := s.raiders.map (fun (r : Raider) => if r.id = id then mergeRaiderUpdates r updates else r) }
  let s := { s with saving := true }
  match remote with
  | .thrown _ => s
  | .ok => { s with saving := false }
  | .err m => { s with saving := false, error := some m }

/-- `deleteRaider(id)`. -/
def deleteRaider (remote : RemoteResult) (id : Value) (s : DkpState) : DkpState :=
  let s := { s with error := none }
  let raiderToDelete := s.raiders.find? (fun r => r.id = id)
  let s := { s with raiders := s.raiders.filter (fun r => r.id ≠ id) }
  let s := { s with saving := true }
  match remote with
  | .thrown _ => s
  | .ok => { s with saving := false }
  | .err m =>
    let s := { s with saving := false, error := some m }
    match raiderToDelete with
    | some r => { s with raiders := s.raiders ++ [r] }
    | none => s

/-- `bulkUpdateRaiders(updates)`: all optimistic changes first, then all
remote writes via `Promise.all` (the i-th write's outcome is
`remote i`).  If any write rejects, `Promise.all` rejects and everything
after the `await` is skipped; otherwise failing results' messages are
joined with a comma. -/
def bulkUpdateRaiders (remote : Nat → RemoteResult) (updates : List RaiderUpdates)
    (s : DkpState) : DkpState :=
  let s := { s with error := none }
  let applyBulk := fun (r : Raider) =>
    match updates.find? (fun u => u.id = r.id) with
    | some u => mergeRaiderUpdates r u
    | none => r
  let s := { s with raiders := s.raiders.map applyBulk }
  let s := { s with saving := true }
  let results := (List.range updates.length).map remote
  if results.any RemoteResult.isThrown then s
  else
    let s := { s with saving := false }
    let errors := results.filter RemoteResult.isErr
    if errors.length > 0 then
      { s with error := some (String.intercalate ", " (errors.map RemoteResult.errMessage)) }
    else s

/-- `addRaid(raid)` (prepends to the history). -/
def addRaid (remote : RemoteResult) (raid : Raid) (s : DkpState) : DkpState :=
  let s := { s with error := none }
  let s := { s with raidHistory := raid :: s.raidHistory }
  let s := { s with saving := true }
  match remote with
  | .thrown _ => s
  | .ok => { s with saving := false }
  | .err m =>
    { s with saving := false, error := some m,
             raidHistory := s.raidHistory.filter (fun r => r.id ≠ raid.id) }

/-- `updateRaid(id, updates)`. -/
def updateRaid (remote : RemoteResult) (id : Value) (updates : RaidUpdates)
    (s : DkpState) : DkpState :=
  let s := { s with error := none }
  let s := { s with
    raidHistory := s.raidHistory.map (fun (r : Raid) => if r.id = id then mergeRaidUpdates r updates else r) }
  let s := { s with saving := true }
  match remote with
  | .thrown _ => s
  | .ok => { s with saving := false }
  | .err m => { s with saving := false, error := some m }

/-- `addLoot(loot)` (prepends to the history). -/
def addLoot (remote : RemoteResult) (loot : Loot) (s : DkpState) : DkpState :=
  let s := { s with error := none }
  let s := { s with lootHistory := loot :: s.lootHistory }
  let s := { s with saving := true }
  match remote with
  | .thrown _ => s
  | .ok => { s with saving := false }
  | .err m =>
    { s with saving := false, error := some m,
             lootHistory := s.lootHistory.filter (fun l => l.id ≠ loot.id) }

/-- `addScheduledRaid(raid)`: appends then sorts ascending by
`new Date(dateTime)`; date parsing is modelled by `dateKey`. -/
def addScheduledRaid (dateKey : Value → Int) (remote : RemoteResult)
    (raid : Scheduled) (s : DkpState) : DkpState :=
  let s := { s with error := none }
  let s := { s with
    scheduled := (s.scheduled ++ [raid]).mergeSort (fun a b => decide (dateKey a.dateTime ≤ dateKey b.dateTime)) }
  let s := { s with saving := true }
  match remote with
  | .thrown _ => s
  | .ok => { s with saving := false }
  | .err m =>
    { s with saving := false, error := some m,
             scheduled := s.scheduled.filter (fun r => r.id ≠ raid.id) }

/-- `updateScheduledRaid(id, updates)`. -/
def updateScheduledRaid (remote : RemoteResult) (id : Value)
    (updates : ScheduledUpdates) (s : DkpState) : DkpState :=
  let s := { s with error := none }
  let s := { s with
    scheduled := s.scheduled.map (fun (r : Scheduled) => if r.id = id then mergeScheduledUpdates r updates else r) }
  let s := { s with saving := true }
  match remote with
  | .thrown _ => s
  | .ok => { s with saving := false }
  | .err m => { s with saving := false, error := some m }

/-- `deleteScheduledRaid(id)`. -/
def deleteScheduledRaid (remote : RemoteResult) (id : Value) (s : DkpState) : DkpState :=
  let s := { s with error := none }
  let toDelete := s.scheduled.find? (fun r => r.id = id)
  let s := { s with scheduled := s.scheduled.filter (fun r => r.id ≠ id) }
  let s := { s with saving := true }
  match remote with
  | .thrown _ => s
  | .ok => { s with saving := false }
  | .err m =>
    let s := { s with saving := false, error := some m }
    match toDelete with
    | some r => { s with scheduled := s.scheduled ++ [r] }
    | none => s

/-! ### Change-event integrator -/

/-- `payload.eventType` of a postgres_changes notification. -/
inductive EventType where
  | INSERT
  | UPDATE
  | DELETE
  deriving DecidableEq

/-- The common body of the three branches of `handleRealtimeChange`,
generic over the collection's wire type `W` and local type `L`:
`transformFn` is the per-table transcoder, `getIdL`/`getIdW` read the
`id` fields compared with `===`. -/
def applyChange {W L : Type} (transformFn : W → L) (getIdL : L → Value)
    (getIdW : W → Value) (eventType : EventType) (newRecord oldRecord : W)
    (prev : List L) : List L :=
  match eventType with
  | .INSERT =>
    if prev.any (fun item => getIdL item = getIdW newRecord) then prev
    else transformFn newRecord :: prev
  | .UPDATE =>
    prev.map (fun item =>
      if getIdL item = getIdW newRecord then transformFn newRecord else item)
  | .DELETE => prev.filter (fun item => getIdL item ≠ getIdW oldRecord)

/-- One realtime notification, tagged by the table its channel handler is
subscribed to; carries the payload's `new` and `old` rows. -/
inductive RealtimeMsg where
  | raidersMsg (eventType : EventType) (newRecord oldRecord : DbRaider)
  | raidHistoryMsg (eventType : EventType) (newRecord oldRecord : DbRaid)
  | lootHistoryMsg (eventType : EventType) (newRecord oldRecord : DbLoot)
  | scheduledMsg (eventType : EventType) (newRecord oldRecord : DbScheduled)
  deriving DecidableEq

/-- `handleRealtimeChange(table, payload)`: dispatch on the table, apply
the event to that collection with its transcoder. -/
def handleRealtimeChange (s : DkpState) : RealtimeMsg → DkpState
  | .raidersMsg et n o =>
    { s with raiders :=
        applyChange transformRaiderFromDb Raider.id DbRaider.id et n o s.raiders }
  | .raidHistoryMsg et n o =>
    { s with raidHistory :=
        applyChange transformRaidFromDb Raid.id DbRaid.id et n o s.raidHistory }
  | .lootHistoryMsg et n o =>
    { s with lootHistory :=
        applyChange transformLootFromDb Loot.id DbLoot.id et n o s.lootHistory }
  | .scheduledMsg et n o =>
    { s with scheduled :=
        applyChange transformScheduledFromDb Scheduled.id DbScheduled.id et n o s.scheduled }

/-- A subscription callback: `if (saving.current) return;` then
`handleRealtimeChange(table, payload)` (each of the four `.on` handlers
has this exact shape). -/
def realtimeEvent (s : DkpState) (msg : RealtimeMsg) : DkpState :=
  if s.saving then s else handleRealtimeChange s msg

/-! ### Bootstrap loader -/

/-- Result of one `select(...)` fetch: a `data` array (possibly `null`)
and an optional error carrying a message. -/
structure FetchRes (W : Type) where
  data : Option (List W)
  error : Option String

/-- `loadAllData` after the parallel fetches resolve.  `active` is the
cleanup liveness flag checked once the awaited results arrive; errors are
checked in table order and the first one is thrown to the catch block,
which records `err.message` and drops loading.  On success all four
collections are transcoded and installed. -/
def loadAllData (active : Bool) (raidersRes : FetchRes DbRaider)
    (raidHistoryRes : FetchRes DbRaid) (lootHistoryRes : FetchRes DbLoot)
    (scheduledRes : FetchRes DbScheduled) (s : DkpState) : DkpState :=
  let s := { s with loading := true, error := none }
  if !active then s
  else
    match raidersRes.error, raidHistoryRes.error, lootHistoryRes.error,
        scheduledRes.error with
    | some m, _, _, _ => { s with error := some m, loading := false }
    | none, some m, _, _ => { s with error := some m, loading := false }
    | none, none, some m, _ => { s with error := some m, loading := false }
    | none, none, none, some m => { s with error := some m, loading := false }
    | none, none, none, none =>
      { s with
        raiders := (raidersRes.data.getD []).map transformRaiderFromDb,
        raidHistory := (raidHistoryRes.data.getD []).map transformRaidFromDb,
        lootHistory := (lootHistoryRes.data.getD []).map transformLootFromDb,
        scheduled := (scheduledRes.data.getD []).map transformScheduledFromDb,
        loading := false }

/-! ### Concrete fixtures used by counterexamples and witnesses -/

def raider1 : Raider :=
  { id := .vNum 1, name := .vStr "Alice", «class» := .vStr "Warrior",
    rank := .vStr "Member", dkp := .vNum 100, raidCount := .vNum 3,
    createdAt := .vStr "2024-01-01" }

/-- Same identifier as `raider1`, different payload. -/
def raider1dup : Raider := { raider1 with name := .vStr "Bob" }

def state1 : DkpState :=
  { initialState with raiders := [raider1], loading := false }

def stateSaving : DkpState := { state1 with saving := true }

def dbRaider2 : DbRaider :=
  { id := .vNum 2, name := .vStr "Cleo", «class» := .vStr "Mage",
    rank := .vStr "Officer", dkp := .vNum 50, raid_count := .vNum 1,
    created_at := .vStr "2024-02-02" }

def msg1 : RealtimeMsg := .raidersMsg .INSERT dbRaider2 dbRaider2

/-! ### Claim theorems -/

/-- Claim C1 (code bug evidence): if the awaited remote write rejects, the
code after the `await` — in particular `saving.current = false` — never
runs (there is no try/finally), so the echo-suppression flag stays `true`,
contradicting the claim that it is false on every exit path.  Shown for
`addRaider` and for `bulkUpdateRaiders` (where a rejecting member makes
`Promise.all` reject). -/
theorem savingFlag_stuck_on_rejected_write (msg : String) (raider : Raider)
    (remote : Nat → RemoteResult) (updates : List RaiderUpdates) (s : DkpState) :
    (addRaider RemoteResult.ok raider s).saving = false ∧
    (addRaider (RemoteResult.err msg) raider s).saving = false ∧
    (addRaider (RemoteResult.thrown msg) raider s).saving = true ∧
    (((List.range updates.length).map remote).any RemoteResult.isThrown = true →
      (bulkUpdateRaiders remote updates s).saving = true) := by
  refine ⟨rfl, rfl, rfl, ?_⟩
  intro h
  simp [bulkUpdateRaiders, h]

theorem savingFlag_stuck_on_rejected_write_witness :
    (([0].map (fun _ => RemoteResult.thrown "net")).any RemoteResult.isThrown = true) ∧
    (addRaider (RemoteResult.thrown "net") raider1 state1).saving = true ∧
    (bulkUpdateRaiders (fun _ => RemoteResult.thrown "net") [{ id := .vNum 1 }] state1).saving = true := by
  refine ⟨by decide, ?_, ?_⟩
  · exact (savingFlag_stuck_on_rejected_write "net" raider1
      (fun _ => RemoteResult.thrown "net") [{ id := .vNum 1 }] state1).2.2.1
  · exact (savingFlag_stuck_on_rejected_write "net" raider1
      (fun _ => RemoteResult.thrown "net") [{ id := .vNum 1 }] state1).2.2.2 (by decide)

/-- Claim C9: whenever the echo-suppression flag is set, any incoming
realtime change event — any table, any event kind, any identifier — is
discarded and the state (all four collections included) is unchanged. -/
theorem realtime_event_dropped_while_saving (s : DkpState) (msg : RealtimeMsg)
    (h : s.saving = true) : realtimeEvent s msg = s := by
  simp [realtimeEvent, h]

theorem realtime_event_dropped_while_saving_witness :
    stateSaving.saving = true ∧ realtimeEvent stateSaving msg1 = stateSaving :=
  ⟨by decide, realtime_event_dropped_while_saving stateSaving msg1 (by decide)⟩

/-- Claim C4: if any one of the four bootstrap fetches returns an error,
no collection is installed (each collection is left exactly as it was, so
from the empty initial state the Replica stays empty), the error slot is
set, and the loading flag ends up false. -/
theorem bootstrap_failure_installs_nothing (r1 : FetchRes DbRaider)
    (r2 : FetchRes DbRaid) (r3 : FetchRes DbLoot) (r4 : FetchRes DbScheduled)
    (s : DkpState)
    (h : r1.error ≠ none ∨ r2.error ≠ none ∨ r3.error ≠ none ∨ r4.error ≠ none) :
    (loadAllData true r1 r2 r3 r4 s).raiders = s.raiders ∧
    (loadAllData true r1 r2 r3 r4 s).raidHistory = s.raidHistory ∧
    (loadAllData true r1 r2 r3 r4 s).lootHistory = s.lootHistory ∧
    (loadAllData true r1 r2 r3 r4 s).scheduled = s.scheduled ∧
    (loadAllData true r1 r2 r3 r4 s).error ≠ none ∧
    (loadAllData true r1 r2 r3 r4 s).loading = false := by
  cases e1 : r1.error <;> cases e2 : r2.error <;> cases e3 : r3.error <;>
    cases e4 : r4.error <;> simp_all [loadAllData]

theorem bootstrap_failure_installs_nothing_witness :
    ((⟨none, some "db down"⟩ : FetchRes DbRaid).error ≠ none ∨ True) ∧
    (loadAllData true ⟨some [dbRaider2], none⟩ ⟨none, some "db down"⟩
        ⟨some [], none⟩ ⟨some [], none⟩ initialState).raiders = [] ∧
    (loadAllData true ⟨some [dbRaider2], none⟩ ⟨none, some "db down"⟩
        ⟨some [], none⟩ ⟨some [], none⟩ initialState).error ≠ none ∧
    (loadAllData true ⟨some [dbRaider2], none⟩ ⟨none, some "db down"⟩
        ⟨some [], none⟩ ⟨some [], none⟩ initialState).loading = false := by
  have h := bootstrap_failure_installs_nothing ⟨some [dbRaider2], none⟩
    ⟨none, some "db down"⟩ ⟨some [], none⟩ ⟨some [], none⟩ initialState
    (Or.inr (Or.inl (by simp)))
  exact ⟨Or.inr trivial, h.1, h.2.2.2.2.1, h.2.2.2.2.2⟩

/-- Fresh identifier relative to `state1`. -/
def raider3 : Raider := { raider1 with id := .vNum 3 }

/-- The concrete update `{dkp: 150}` of the spec's scenario. -/
def u150 : RaiderUpdates := { dkp := .vNum 150 }

/-- Claim C5: after a create whose remote insert returns an error, the
rollback removes every record carrying the new record's identifier from
the collection, and the error slot holds the failure message — for all
four add operations. -/
theorem failed_create_rolls_back (m : String) (s : DkpState) :
    (∀ raider : Raider, (addRaider (.err m) raider s).error = some m ∧
      ∀ x ∈ (addRaider (.err m) raider s).raiders, x.id ≠ raider.id) ∧
    (∀ raid : Raid, (addRaid (.err m) raid s).error = some m ∧
      ∀ x ∈ (addRaid (.err m) raid s).raidHistory, x.id ≠ raid.id) ∧
    (∀ loot : Loot, (addLoot (.err m) loot s).error = some m ∧
      ∀ x ∈ (addLoot (.err m) loot s).lootHistory, x.id ≠ loot.id) ∧
    (∀ (dateKey : Value → Int) (raid : Scheduled),
      (addScheduledRaid dateKey (.err m) raid s).error = some m ∧
      ∀ x ∈ (addScheduledRaid dateKey (.err m) raid s).scheduled, x.id ≠ raid.id) := by
  refine ⟨fun raider => ⟨rfl, fun x hx => ?_⟩, fun raid => ⟨rfl, fun x hx => ?_⟩,
    fun loot => ⟨rfl, fun x hx => ?_⟩, fun dateKey raid => ⟨rfl, fun x hx => ?_⟩⟩
  · simp [addRaider, List.mem_filter] at hx
    exact hx.2
  · simp [addRaid, List.mem_filter] at hx
    exact hx.2
  · simp [addLoot, List.mem_filter] at hx
    exact hx.2
  · simp [addScheduledRaid, List.mem_filter] at hx
    exact hx.2

theorem failed_create_rolls_back_witness :
    (addRaider (RemoteResult.err "dup") raider3 state1).error = some "dup" ∧
    raider1 ∈ (addRaider (RemoteResult.err "dup") raider3 state1).raiders ∧
    raider1.id ≠ raider3.id := by
  refine ⟨((failed_create_rolls_back "dup" state1).1 raider3).1, by decide, ?_⟩
  exact ((failed_create_rolls_back "dup" state1).1 raider3).2 raider1 (by decide)

/-- Claim C6: an update whose remote write returns an error is *not*
rolled back: every collection member is exactly the optimistic shallow
merge, the merged record of any present identifier is still in the
collection, and the error slot holds the failure message — for
`updateRaider`, `updateRaid` and `updateScheduledRaid`. -/
theorem failed_update_keeps_optimistic_merge (m : String) (id : Value) (s : DkpState) :
    (∀ u : RaiderUpdates,
      (updateRaider (.err m) id u s).raiders
        = s.raiders.map (fun (r : Raider) => if r.id = id then mergeRaiderUpdates r u else r) ∧
      (updateRaider (.err m) id u s).error = some m ∧
      ∀ r ∈ s.raiders, r.id = id →
        mergeRaiderUpdates r u ∈ (updateRaider (.err m) id u s).raiders) ∧
    (∀ u : RaidUpdates,
      (updateRaid (.err m) id u s).raidHistory
        = s.raidHistory.map (fun (r : Raid) => if r.id = id then mergeRaidUpdates r u else r) ∧
      (updateRaid (.err m) id u s).error = some m ∧
      ∀ r ∈ s.raidHistory, r.id = id →
        mergeRaidUpdates r u ∈ (updateRaid (.err m) id u s).raidHistory) ∧
    (∀ u : ScheduledUpdates,
      (updateScheduledRaid (.err m) id u s).scheduled
        = s.scheduled.map (fun (r : Scheduled) => if r.id = id then mergeScheduledUpdates r u else r) ∧
      (updateScheduledRaid (.err m) id u s).error = some m ∧
      ∀ r ∈ s.scheduled, r.id = id →
        mergeScheduledUpdates r u ∈ (updateScheduledRaid (.err m) id u s).scheduled) := by
  refine ⟨fun u => ⟨rfl, rfl, fun r hr hid => ?_⟩, fun u => ⟨rfl, rfl, fun r hr hid => ?_⟩,
    fun u => ⟨rfl, rfl, fun r hr hid => ?_⟩⟩
  · have he : (updateRaider (.err m) id u s).raiders
        = s.raiders.map (fun (r : Raider) => if r.id = id then mergeRaiderUpdates r u else r) := rfl
    rw [he, List.mem_map]
    exact ⟨r, hr, by simp [hid]⟩
  · have he : (updateRaid (.err m) id u s).raidHistory
        = s.raidHistory.map (fun (r : Raid) => if r.id = id then mergeRaidUpdates r u else r) := rfl
    rw [he, List.mem_map]
    exact ⟨r, hr, by simp [hid]⟩
  · have he : (updateScheduledRaid (.err m) id u s).scheduled
        = s.scheduled.map (fun (r : Scheduled) => if r.id = id then mergeScheduledUpdates r u else r) := rfl
    rw [he, List.mem_map]
    exact ⟨r, hr, by simp [hid]⟩

theorem failed_update_keeps_optimistic_merge_witness :
    raider1 ∈ state1.raiders ∧ raider1.id = Value.vNum 1 ∧
    mergeRaiderUpdates raider1 u150
      ∈ (updateRaider (RemoteResult.err "update failed") (Value.vNum 1) u150 state1).raiders ∧
    (updateRaider (RemoteResult.err "update failed") (Value.vNum 1) u150 state1).error
      = some "update failed" ∧
    mergeRaiderUpdates raider1 u150 = { raider1 with dkp := .vNum 150 } := by
  have h := (failed_update_keeps_optimistic_merge "update failed" (Value.vNum 1) state1).1 u150
  exact ⟨by decide, by decide, h.2.2 raider1 (by decide) (by decide), h.2.1, by decide⟩

/-- Claim C8: a delete whose remote call returns an error restores the
captured record: the first record found under the identifier before the
delete is present again afterwards (appended, so position may differ)
with exactly its old field values, and the error slot is set — for
`deleteRaider` and `deleteScheduledRaid`. -/
theorem failed_delete_restores_record (m : String) (id : Value) (s : DkpState) :
    ((∃ r ∈ s.raiders, r.id = id) →
      ∃ r, s.raiders.find? (fun x => x.id = id) = some r ∧ r.id = id ∧
        r ∈ (deleteRaider (.err m) id s).raiders ∧
        (deleteRaider (.err m) id s).error = some m) ∧
    ((∃ r ∈ s.scheduled, r.id = id) →
      ∃ r, s.scheduled.find? (fun x => x.id = id) = some r ∧ r.id = id ∧
        r ∈ (deleteScheduledRaid (.err m) id s).scheduled ∧
        (deleteScheduledRaid (.err m) id s).error = some m) := by
  constructor
  · rintro ⟨r0, hr0, hid0⟩
    have hsome : (s.raiders.find? (fun x => x.id = id)).isSome := by
      rw [List.find?_isSome]
      exact ⟨r0, hr0, by simp [hid0]⟩
    obtain ⟨r, hfind⟩ := Option.isSome_iff_exists.mp hsome
    refine ⟨r, hfind, ?_, ?_, ?_⟩
    · have := List.find?_some hfind
      simpa using this
    · simp [deleteRaider, hfind]
    · simp [deleteRaider, hfind]
  · rintro ⟨r0, hr0, hid0⟩
    have hsome : (s.scheduled.find? (fun x => x.id = id)).isSome := by
      rw [List.find?_isSome]
      exact ⟨r0, hr0, by simp [hid0]⟩
    obtain ⟨r, hfind⟩ := Option.isSome_iff_exists.mp hsome
    refine ⟨r, hfind, ?_, ?_, ?_⟩
    · have := List.find?_some hfind
      simpa using this
    · simp [deleteScheduledRaid, hfind]
    · simp [deleteScheduledRaid, hfind]

theorem failed_delete_restores_record_witness :
    (∃ r ∈ state1.raiders, r.id = Value.vNum 1) ∧
    (∃ r, state1.raiders.find? (fun x => x.id = Value.vNum 1) = some r ∧
      r.id = Value.vNum 1 ∧
      r ∈ (deleteRaider (RemoteResult.err "boom") (Value.vNum 1) state1).raiders ∧
      (deleteRaider (RemoteResult.err "boom") (Value.vNum 1) state1).error = some "boom") := by
  refine ⟨⟨raider1, by decide, by decide⟩, ?_⟩
  exact (failed_delete_restores_record "boom" (Value.vNum 1) state1).1
    ⟨raider1, by decide, by decide⟩

/-- Claim C7: `bulkUpdateRaiders` keeps every optimistic value (no
rollback of any member, failed or confirmed) and, when a subset of the
remote writes fails (none rejecting), stores the failing messages joined
by ", " — a single failing write contributing exactly its own message. -/
theorem bulk_update_no_rollback_joined_errors (remote : Nat → RemoteResult)
    (updates : List RaiderUpdates) (s : DkpState)
    (hnothrow : ((List.range updates.length).map remote).any RemoteResult.isThrown = false) :
    (bulkUpdateRaiders remote updates s).raiders
      = s.raiders.map (fun (r : Raider) =>
          match updates.find? (fun u => u.id = r.id) with
          | some u => mergeRaiderUpdates r u
          | none => r) ∧
    ((((List.range updates.length).map remote).filter RemoteResult.isErr) ≠ [] →
      (bulkUpdateRaiders remote updates s).error
        = some (String.intercalate ", "
            ((((List.range updates.length).map remote).filter RemoteResult.isErr).map
              RemoteResult.errMessage))) ∧
    (∀ mOne : String,
      (((List.range updates.length).map remote).filter RemoteResult.isErr)
          = [RemoteResult.err mOne] →
      (bulkUpdateRaiders remote updates s).error = some mOne) := by
  refine ⟨?_, ?_, ?_⟩
  · simp only [bulkUpdateRaiders, hnothrow, Bool.false_eq_true, if_false]
    split <;> rfl
  · intro hne
    have hpos : 0 < (((List.range updates.length).map remote).filter RemoteResult.isErr).length :=
      List.length_pos.mpr hne
    simp [bulkUpdateRaiders, hnothrow, hpos]
  · intro mOne heq
    have hne : (((List.range updates.length).map remote).filter RemoteResult.isErr) ≠ [] := by
      rw [heq]
      exact List.cons_ne_nil _ _
    have hpos : 0 < (((List.range updates.length).map remote).filter RemoteResult.isErr).length :=
      List.length_pos.mpr hne
    simp [bulkUpdateRaiders, hnothrow, hpos, heq, RemoteResult.errMessage]
    rfl

/-- Three members updated, the middle remote write failing. -/
def bulkRemote1 : Nat → RemoteResult :=
  fun i => if i = 1 then RemoteResult.err "row locked" else RemoteResult.ok

def bulkUpdates1 : List RaiderUpdates :=
  [{ id := .vNum 1, dkp := .vNum 10 }, { id := .vNum 2, dkp := .vNum 20 },
   { id := .vNum 3, dkp := .vNum 30 }]

theorem bulk_update_no_rollback_joined_errors_witness :
    (((List.range bulkUpdates1.length).map bulkRemote1).any RemoteResult.isThrown = false) ∧
    (((List.range bulkUpdates1.length).map bulkRemote1).filter RemoteResult.isErr
      = [RemoteResult.err "row locked"]) ∧
    (bulkUpdateRaiders bulkRemote1 bulkUpdates1 state1).raiders
      = state1.raiders.map (fun (r : Raider) =>
          match bulkUpdates1.find? (fun u => u.id = r.id) with
          | some u => mergeRaiderUpdates r u
          | none => r) ∧
    (bulkUpdateRaiders bulkRemote1 bulkUpdates1 state1).error = some "row locked" := by
  have h := bulk_update_no_rollback_joined_errors bulkRemote1 bulkUpdates1 state1 (by decide)
  exact ⟨by decide, by decide, h.1, h.2.2 "row locked" (by decide)⟩

/-! ### Round-trip facts about the transcoders -/

/-- A wire value that is present (neither `undefined` nor `null`), so the
`??` defaults in the `toDb` direction do not fire. -/
def notNullish (v : Value) : Prop := v ≠ Value.undef ∧ v ≠ Value.vNull

instance (v : Value) : Decidable (notNullish v) :=
  inferInstanceAs (Decidable (v ≠ Value.undef ∧ v ≠ Value.vNull))

theorem jsNullish_eq_self {v : Value} (d : Value) (h : notNullish v) :
    jsNullish v d = v := by
  simp [jsNullish, h.1, h.2]

theorem jsOr_pos {a : Value} (b : Value) (h : a.truthy = true) : jsOr a b = a := by
  simp [jsOr, h]

theorem jsOr_neg {a : Value} (b : Value) (h : a.truthy = false) : jsOr a b = b := by
  simp [jsOr, h]

theorem jsOr_undef (b : Value) : jsOr .undef b = b := rfl

theorem jsOr_arr_idem (x : Value) (l : List Value) :
    jsOr (jsOr x (.vArr l)) (.vArr l) = jsOr x (.vArr l) := by
  by_cases h : x.truthy = true
  · rw [jsOr_pos _ h, jsOr_pos _ h]
  · have h2 : x.truthy = false := by simpa using h
    rw [jsOr_neg _ h2, jsOr_pos (a := Value.vArr l) _ rfl]

theorem jsOr_str_round (w : Value) :
    jsOr (jsOr (jsOr w (.vStr "")) .vNull) (.vStr "") = jsOr w (.vStr "") := by
  by_cases h : w.truthy = true
  · rw [jsOr_pos _ h, jsOr_pos _ h, jsOr_pos _ h]
  · have h2 : w.truthy = false := by simpa using h
    rw [jsOr_neg _ h2]
    decide

theorem jsOr_null_eq_self {v : Value} (h : v.truthy = true ∨ v = .vNull) :
    jsOr v .vNull = v := by
  rcases h with h | h
  · exact jsOr_pos _ h
  · subst h
    exact jsOr_neg _ (by decide)

/-- A fully-populated wire raid row whose `edit_history` is nonempty. -/
def dbRaid1 : DbRaid :=
  { id := .vNum 7, raid_type := .vStr "MC", bosses_killed := .vArr [.vStr "Ragnaros"],
    prog_bosses := .vArr [], participants := .vArr [.vNum 1],
    dkp_awarded := .vBool true, warcraft_logs_url := .vStr "https://logs",
    completed_at := .vStr "2024-03-03", edit_history := .vArr [.vStr "edited"] }

/-- Claim C2 (counterexample): `transformRaidToDb` emits no
`edit_history`, so the round trip resets a nonempty `editHistory` to `[]`
and is not idempotent even on a fully-populated, valid raid row. -/
theorem raid_round_trip_not_idempotent :
    transformRaidFromDb (transformRaidToDb (.vStr "2024-05-05") (transformRaidFromDb dbRaid1))
      ≠ transformRaidFromDb dbRaid1 := by decide

/-- Claim C2 (amended): the round trip `toLocal ∘ toWire ∘ toLocal =
toLocal` holds for raider, loot and scheduled wire rows whose defaulted
fields are present (non-nullish; for loot's `||`-guarded reference fields,
truthy or `null`), and for raid rows only when `edit_history` is empty or
absent — because `transformRaidToDb` drops `edit_history`. -/
theorem round_trip_idempotent_amended (now : Value)
    (r : DbRaider) (hrc : notNullish r.raid_count) (hca : notNullish r.created_at)
    (d : DbRaid) (hda : notNullish d.dkp_awarded) (hcm : notNullish d.completed_at)
    (heh : jsOr d.edit_history (.vArr []) = .vArr [])
    (l : DbLoot) (hri : l.raid_id.truthy = true ∨ l.raid_id = .vNull)
    (hwi : l.wowhead_id.truthy = true ∨ l.wowhead_id = .vNull)
    (hib : notNullish l.is_bis) (hdc : notNullish l.dkp_cost)
    (hts : notNullish l.timestamp)
    (c : DbScheduled) (hsc : notNullish c.created_at) :
    transformRaiderFromDb (transformRaiderToDb now (transformRaiderFromDb r))
      = transformRaiderFromDb r ∧
    transformRaidFromDb (transformRaidToDb now (transformRaidFromDb d))
      = transformRaidFromDb d ∧
    transformLootFromDb (transformLootToDb now (transformLootFromDb l))
      = transformLootFromDb l ∧
    transformScheduledFromDb (transformScheduledToDb now (transformScheduledFromDb c))
      = transformScheduledFromDb c := by
  refine ⟨?_, ?_, ?_, ?_⟩
  · simp [transformRaiderFromDb, transformRaiderToDb,
      jsNullish_eq_self _ hrc, jsNullish_eq_self _ hca]
  · simp [transformRaidFromDb, transformRaidToDb, jsOr_arr_idem, jsOr_str_round,
      jsNullish_eq_self _ hda, jsNullish_eq_self _ hcm, heh, jsOr_undef]
  · simp [transformLootFromDb, transformLootToDb, jsOr_null_eq_self hri,
      jsOr_null_eq_self hwi, jsNullish_eq_self _ hib, jsNullish_eq_self _ hdc,
      jsNullish_eq_self _ hts]
  · simp [transformScheduledFromDb, transformScheduledToDb, jsOr_arr_idem,
      jsOr_str_round, jsNullish_eq_self _ hsc]

/-- `dbRaid1` with its edit history emptied, so the round trip preserves it. -/
def dbRaid2 : DbRaid := { dbRaid1 with edit_history := .vArr [] }

def dbLoot1 : DbLoot :=
  { id := .vNum 11, raid_id := .vNum 7, item_name := .vStr "Bindings",
    wowhead_id := .vNum 18564, winner_id := .vNum 1, category := .vStr "weapon",
    is_bis := .vBool false, dkp_cost := .vNum 0, timestamp := .vStr "2024-03-04" }

def dbScheduled1 : DbScheduled :=
  { id := .vNum 21, raid_type := .vStr "BWL", date_time := .vStr "2024-04-01T19:00",
    note := .vStr "", roster := .vArr [.vNum 1], created_at := .vStr "2024-03-05" }

theorem round_trip_idempotent_amended_witness :
    notNullish dbRaider2.raid_count ∧
    jsOr dbRaid2.edit_history (.vArr []) = .vArr [] ∧
    transformRaiderFromDb (transformRaiderToDb (.vStr "T") (transformRaiderFromDb dbRaider2))
      = transformRaiderFromDb dbRaider2 ∧
    transformRaidFromDb (transformRaidToDb (.vStr "T") (transformRaidFromDb dbRaid2))
      = transformRaidFromDb dbRaid2 ∧
    transformLootFromDb (transformLootToDb (.vStr "T") (transformLootFromDb dbLoot1))
      = transformLootFromDb dbLoot1 ∧
    transformScheduledFromDb (transformScheduledToDb (.vStr "T") (transformScheduledFromDb dbScheduled1))
      = transformScheduledFromDb dbScheduled1 := by
  have h := round_trip_idempotent_amended (.vStr "T") dbRaider2 (by decide) (by decide)
    dbRaid2 (by decide) (by decide) (by decide) dbLoot1 (by decide) (by decide)
    (by decide) (by decide) (by decide) dbScheduled1 (by decide)
  exact ⟨by decide, by decide, h.1, h.2.1, h.2.2.1, h.2.2.2⟩

/-! ### Identifier uniqueness -/

/-- Identifiers are unique within each of the four collections. -/
def allIdsNodup (s : DkpState) : Prop :=
  (s.raiders.map Raider.id).Nodup ∧ (s.raidHistory.map Raid.id).Nodup ∧
  (s.lootHistory.map Loot.id).Nodup ∧ (s.scheduled.map Scheduled.id).Nodup

instance (s : DkpState) : Decidable (allIdsNodup s) :=
  inferInstanceAs (Decidable (_ ∧ _ ∧ _ ∧ _))

theorem applyChange_map_id_nodup {W L : Type} (tf : W → L) (gl : L → Value)
    (gw : W → Value) (hid : ∀ w, gl (tf w) = gw w) (et : EventType) (n o : W)
    (prev : List L) (h : (prev.map gl).Nodup) :
    ((applyChange tf gl gw et n o prev).map gl).Nodup := by
  cases et with
  | INSERT =>
    dsimp [applyChange]
    split
    · exact h
    · rename_i hany
      rw [List.map_cons, hid, List.nodup_cons]
      refine ⟨?_, h⟩
      intro hmem
      obtain ⟨x, hx, hgx⟩ := List.mem_map.mp hmem
      exact hany (List.any_eq_true.mpr ⟨x, hx, by simp [hgx]⟩)
  | UPDATE =>
    dsimp [applyChange]
    rw [List.map_map]
    have hfun : (gl ∘ fun item => if gl item = gw n then tf n else item) = gl := by
      funext item
      by_cases hc : gl item = gw n <;> simp [Function.comp, hc, hid]
    rw [hfun]
    exact h
  | DELETE =>
    dsimp [applyChange]
    exact List.Nodup.sublist (List.Sublist.map gl (List.filter_sublist prev)) h

theorem nodup_map_append_singleton {α : Type} (f : α → Value) (l : List α) (a : α)
    (h : (l.map f).Nodup) (hna : f a ∉ l.map f) : ((l ++ [a]).map f).Nodup := by
  rw [List.map_append]
  refine List.Nodup.append h (List.nodup_singleton _) ?_
  intro x hx hx2
  rw [List.map_singleton, List.mem_singleton] at hx2
  subst hx2
  exact hna hx

theorem nodup_map_replace (id c : Value) (l : List Value) (h : l.Nodup) (hc : c ∉ l) :
    (l.map (fun x => if x = id then c else x)).Nodup := by
  induction l with
  | nil => simp
  | cons a as ih =>
    rw [List.nodup_cons] at h
    rw [List.mem_cons, not_or] at hc
    rw [List.map_cons, List.nodup_cons]
    refine ⟨?_, ih h.2 hc.2⟩
    intro hmem
    obtain ⟨x, hx, hgx⟩ := List.mem_map.mp hmem
    by_cases haid : a = id <;> by_cases hxid : x = id <;> simp [haid, hxid] at hgx
    · exact h.1 ((hxid.trans haid.symm) ▸ hx)
    · exact hc.2 (hgx ▸ hx)
    · exact hc.1 hgx
    · exact h.1 (hgx ▸ hx)

/-- An in-place update `prev.map(r => r.id === id ? f(r) : r)` whose
merged record carries identifier `c` preserves uniqueness when `c` is the
old identifier or is not in use. -/
theorem nodup_map_conditional_update {L : Type} (gl : L → Value) (f : L → L)
    (id c : Value) (l : List L) (hf : ∀ r, gl r = id → gl (f r) = c)
    (h : (l.map gl).Nodup) (hcond : c = id ∨ c ∉ l.map gl) :
    ((l.map (fun r => if gl r = id then f r else r)).map gl).Nodup := by
  have hids : ((l.map (fun r => if gl r = id then f r else r)).map gl)
      = (l.map gl).map (fun x => if x = id then c else x) := by
    rw [List.map_map, List.map_map]
    refine List.map_congr_left ?_
    intro r hr
    by_cases hcase : gl r = id
    · simp [Function.comp, hcase, hf r hcase]
    · simp [Function.comp, hcase]
  rw [hids]
  rcases hcond with hceq | hcnot
  · subst hceq
    have hfun : (fun x => if x = c then c else x) = (fun x : Value => x) := by
      funext x
      by_cases hxi : x = c <;> simp [hxi]
    rw [hfun, List.map_id']
    exact h
  · exact nodup_map_replace id c _ h hcnot

/-- A bulk-update member merge never moves a record's identifier: the
`find` guard forces `u.id === r.id`, so the spread writes the same id
back. -/
theorem applyBulk_id (updates : List RaiderUpdates) (r : Raider) :
    (match updates.find? (fun (u : RaiderUpdates) => u.id = r.id) with
      | some u => mergeRaiderUpdates r u
      | none => r).id = r.id := by
  cases hf : updates.find? (fun (u : RaiderUpdates) => u.id = r.id) with
  | none => rfl
  | some u =>
    have hu : u.id = r.id := by simpa using List.find?_some hf
    by_cases hud : u.id = Value.undef
    · simp [mergeRaiderUpdates, spreadField, hud]
    · simp [mergeRaiderUpdates, spreadField, hud, hu]

/-- Claim C3 (counterexample): `addRaider` inserts optimistically without
checking for an existing identifier, so adding a record whose id is
already present (here against `state1 = [raider1]`, remote insert
succeeding) leaves two records with id 1 in the collection. -/
theorem add_duplicate_id_violates_uniqueness :
    raider1dup.id ∈ state1.raiders.map Raider.id ∧
    ¬ (((addRaider RemoteResult.ok raider1dup state1).raiders.map Raider.id).Nodup) := by
  constructor
  · decide
  · decide

/-- Claim C3 (amended): identifier uniqueness is preserved by every
realtime change event (INSERT deduplicates, UPDATE keeps ids, DELETE
filters), by the bootstrap install when the fetched rows have unique ids,
by the optimistic adds when the inserted identifier is not already
present (on every remote outcome; the error-path rollback filters by id
and so also preserves it), by the three field-level updates whenever the
payload's spread does not move a record to an identifier already in use
elsewhere (in particular whenever the payload does not redefine `id`),
and unconditionally by `deleteRaider`, `deleteScheduledRaid` (filter,
plus err-path re-append of the record whose id was just filtered out) and
by `bulkUpdateRaiders` (its `find` guard forces every merged id to equal
the record's own). -/
theorem uniqueness_preservation_amended :
    (∀ (s : DkpState) (msg : RealtimeMsg), allIdsNodup s →
      allIdsNodup (realtimeEvent s msg)) ∧
    (∀ (active : Bool) (r1 : FetchRes DbRaider) (r2 : FetchRes DbRaid)
        (r3 : FetchRes DbLoot) (r4 : FetchRes DbScheduled) (s : DkpState),
      allIdsNodup s →
      ((r1.data.getD []).map DbRaider.id).Nodup →
      ((r2.data.getD []).map DbRaid.id).Nodup →
      ((r3.data.getD []).map DbLoot.id).Nodup →
      ((r4.data.getD []).map DbScheduled.id).Nodup →
      allIdsNodup (loadAllData active r1 r2 r3 r4 s)) ∧
    (∀ (remote : RemoteResult) (raider : Raider) (s : DkpState),
      (s.raiders.map Raider.id).Nodup → raider.id ∉ s.raiders.map Raider.id →
      ((addRaider remote raider s).raiders.map Raider.id).Nodup) ∧
    (∀ (remote : RemoteResult) (raid : Raid) (s : DkpState),
      (s.raidHistory.map Raid.id).Nodup → raid.id ∉ s.raidHistory.map Raid.id →
      ((addRaid remote raid s).raidHistory.map Raid.id).Nodup) ∧
    (∀ (remote : RemoteResult) (loot : Loot) (s : DkpState),
      (s.lootHistory.map Loot.id).Nodup → loot.id ∉ s.lootHistory.map Loot.id →
      ((addLoot remote loot s).lootHistory.map Loot.id).Nodup) ∧
    (∀ (dateKey : Value → Int) (remote : RemoteResult) (raid : Scheduled) (s : DkpState),
      (s.scheduled.map Scheduled.id).Nodup → raid.id ∉ s.scheduled.map Scheduled.id →
      ((addScheduledRaid dateKey remote raid s).scheduled.map Scheduled.id).Nodup) ∧
    (∀ (remote : RemoteResult) (id : Value) (u : RaiderUpdates) (s : DkpState),
      (s.raiders.map Raider.id).Nodup →
      (spreadField id u.id = id ∨ spreadField id u.id ∉ s.raiders.map Raider.id) →
      ((updateRaider remote id u s).raiders.map Raider.id).Nodup) ∧
    (∀ (remote : RemoteResult) (id : Value) (u : RaidUpdates) (s : DkpState),
      (s.raidHistory.map Raid.id).Nodup →
      (spreadField id u.id = id ∨ spreadField id u.id ∉ s.raidHistory.map Raid.id) →
      ((updateRaid remote id u s).raidHistory.map Raid.id).Nodup) ∧
    (∀ (remote : RemoteResult) (id : Value) (u : ScheduledUpdates) (s : DkpState),
      (s.scheduled.map Scheduled.id).Nodup →
      (spreadField id u.id = id ∨ spreadField id u.id ∉ s.scheduled.map Scheduled.id) →
      ((updateScheduledRaid remote id u s).scheduled.map Scheduled.id).Nodup) ∧
    (∀ (remote : RemoteResult) (id : Value) (s : DkpState),
      (s.raiders.map Raider.id).Nodup →
      ((deleteRaider remote id s).raiders.map Raider.id).Nodup) ∧
    (∀ (remote : RemoteResult) (id : Value) (s : DkpState),
      (s.scheduled.map Scheduled.id).Nodup →
      ((deleteScheduledRaid remote id s).scheduled.map Scheduled.id).Nodup) ∧
    (∀ (remote : Nat → RemoteResult) (updates : List RaiderUpdates) (s : DkpState),
      (s.raiders.map Raider.id).Nodup →
      ((bulkUpdateRaiders remote updates s).raiders.map Raider.id).Nodup) := by
  refine ⟨?_, ?_, ?_, ?_, ?_, ?_, ?_, ?_, ?_, ?_, ?_, ?_⟩
  · intro s msg h
    by_cases hs : s.saving = true
    · simpa [realtimeEvent, hs] using h
    · have hs2 : s.saving = false := by simpa using hs
      rw [show realtimeEvent s msg = handleRealtimeChange s msg by
        simp [realtimeEvent, hs2]]
      cases msg with
      | raidersMsg et n o =>
        exact ⟨applyChange_map_id_nodup transformRaiderFromDb Raider.id DbRaider.id
            (fun _ => rfl) et n o s.raiders h.1, h.2.1, h.2.2.1, h.2.2.2⟩
      | raidHistoryMsg et n o =>
        exact ⟨h.1, applyChange_map_id_nodup transformRaidFromDb Raid.id DbRaid.id
            (fun _ => rfl) et n o s.raidHistory h.2.1, h.2.2.1, h.2.2.2⟩
      | lootHistoryMsg et n o =>
        exact ⟨h.1, h.2.1, applyChange_map_id_nodup transformLootFromDb Loot.id
            DbLoot.id (fun _ => rfl) et n o s.lootHistory h.2.2.1, h.2.2.2⟩
      | scheduledMsg et n o =>
        exact ⟨h.1, h.2.1, h.2.2.1, applyChange_map_id_nodup transformScheduledFromDb
            Scheduled.id DbScheduled.id (fun _ => rfl) et n o s.scheduled h.2.2.2⟩
  · intro active r1 r2 r3 r4 s h h1 h2 h3 h4
    cases active with
    | false => simpa [loadAllData] using h
    | true =>
      cases e1 : r1.error <;> cases e2 : r2.error <;> cases e3 : r3.error <;>
          cases e4 : r4.error <;>
        simp_all [loadAllData, allIdsNodup, List.map_map]
      exact ⟨h1, h2, h3, h4⟩
  · intro remote raider s h hna
    cases remote with
    | ok => exact nodup_map_append_singleton _ _ _ h hna
    | thrown m => exact nodup_map_append_singleton _ _ _ h hna
    | err m =>
      exact List.Nodup.sublist
        (List.Sublist.map _ (List.filter_sublist _))
        (nodup_map_append_singleton _ _ _ h hna)
  · intro remote raid s h hna
    cases remote with
    | ok => exact List.nodup_cons.mpr ⟨hna, h⟩
    | thrown m => exact List.nodup_cons.mpr ⟨hna, h⟩
    | err m =>
      exact List.Nodup.sublist
        (List.Sublist.map _ (List.filter_sublist _))
        (List.nodup_cons.mpr ⟨hna, h⟩)
  · intro remote loot s h hna
    cases remote with
    | ok => exact List.nodup_cons.mpr ⟨hna, h⟩
    | thrown m => exact List.nodup_cons.mpr ⟨hna, h⟩
    | err m =>
      exact List.Nodup.sublist
        (List.Sublist.map _ (List.filter_sublist _))
        (List.nodup_cons.mpr ⟨hna, h⟩)
  · intro dateKey remote raid s h hna
    have hsorted : (((s.scheduled ++ [raid]).mergeSort
        (fun a b => decide (dateKey a.dateTime ≤ dateKey b.dateTime))).map Scheduled.id).Nodup := by
      have hperm := (List.mergeSort_perm (s.scheduled ++ [raid])
        (fun a b => decide (dateKey a.dateTime ≤ dateKey b.dateTime))).map Scheduled.id
      exact hperm.nodup_iff.mpr (nodup_map_append_singleton _ _ _ h hna)
    cases remote with
    | ok => exact hsorted
    | thrown m => exact hsorted
    | err m =>
      exact List.Nodup.sublist
        (List.Sublist.map _ (List.filter_sublist _)) hsorted
  · intro remote id u s h hcond
    have hraiders : (updateRaider remote id u s).raiders
        = s.raiders.map (fun (r : Raider) => if r.id = id then mergeRaiderUpdates r u else r) := by
      cases remote <;> rfl
    rw [hraiders]
    refine nodup_map_conditional_update Raider.id (fun r => mergeRaiderUpdates r u) id
      (spreadField id u.id) s.raiders ?_ h hcond
    intro r hr
    simp [mergeRaiderUpdates, hr]
  · intro remote id u s h hcond
    have hraids : (updateRaid remote id u s).raidHistory
        = s.raidHistory.map (fun (r : Raid) => if r.id = id then mergeRaidUpdates r u else r) := by
      cases remote <;> rfl
    rw [hraids]
    refine nodup_map_conditional_update Raid.id (fun r => mergeRaidUpdates r u) id
      (spreadField id u.id) s.raidHistory ?_ h hcond
    intro r hr
    simp [mergeRaidUpdates, hr]
  · intro remote id u s h hcond
    have hsched : (updateScheduledRaid remote id u s).scheduled
        = s.scheduled.map (fun (r : Scheduled) => if r.id = id then mergeScheduledUpdates r u else r) := by
      cases remote <;> rfl
    rw [hsched]
    refine nodup_map_conditional_update Scheduled.id (fun r => mergeScheduledUpdates r u) id
      (spreadField id u.id) s.scheduled ?_ h hcond
    intro r hr
    simp [mergeScheduledUpdates, hr]
  · intro remote id s h
    cases remote with
    | ok => exact List.Nodup.sublist (List.Sublist.map _ (List.filter_sublist _)) h
    | thrown m => exact List.Nodup.sublist (List.Sublist.map _ (List.filter_sublist _)) h
    | err m =>
      cases hfind : s.raiders.find? (fun (r : Raider) => r.id = id) with
      | none =>
        have heq : (deleteRaider (RemoteResult.err m) id s).raiders
            = s.raiders.filter (fun x => x.id ≠ id) := by
          simp [deleteRaider, hfind]
        rw [heq]
        exact List.Nodup.sublist (List.Sublist.map _ (List.filter_sublist _)) h
      | some r =>
        have heq : (deleteRaider (RemoteResult.err m) id s).raiders
            = s.raiders.filter (fun x => x.id ≠ id) ++ [r] := by
          simp [deleteRaider, hfind]
        have hrid : r.id = id := by simpa using List.find?_some hfind
        rw [heq]
        refine nodup_map_append_singleton _ _ _
          (List.Nodup.sublist (List.Sublist.map _ (List.filter_sublist _)) h) ?_
        intro hmem
        obtain ⟨x, hx, hgx⟩ := List.mem_map.mp hmem
        have hxne : x.id ≠ id := by simpa using (List.mem_filter.mp hx).2
        exact hxne (hgx.trans hrid)
  · intro remote id s h
    cases remote with
    | ok => exact List.Nodup.sublist (List.Sublist.map _ (List.filter_sublist _)) h
    | thrown m => exact List.Nodup.sublist (List.Sublist.map _ (List.filter_sublist _)) h
    | err m =>
      cases hfind : s.scheduled.find? (fun (r : Scheduled) => r.id = id) with
      | none =>
        have heq : (deleteScheduledRaid (RemoteResult.err m) id s).scheduled
            = s.scheduled.filter (fun x => x.id ≠ id) := by
          simp [deleteScheduledRaid, hfind]
        rw [heq]
        exact List.Nodup.sublist (List.Sublist.map _ (List.filter_sublist _)) h
      | some r =>
        have heq : (deleteScheduledRaid (RemoteResult.err m) id s).scheduled
            = s.scheduled.filter (fun x => x.id ≠ id) ++ [r] := by
          simp [deleteScheduledRaid, hfind]
        have hrid : r.id = id := by simpa using List.find?_some hfind
        rw [heq]
        refine nodup_map_append_singleton _ _ _
          (List.Nodup.sublist (List.Sublist.map _ (List.filter_sublist _)) h) ?_
        intro hmem
        obtain ⟨x, hx, hgx⟩ := List.mem_map.mp hmem
        have hxne : x.id ≠ id := by simpa using (List.mem_filter.mp hx).2
        exact hxne (hgx.trans hrid)
  · intro remote updates s h
    have hraiders : (bulkUpdateRaiders remote updates s).raiders
        = s.raiders.map (fun (r : Raider) =>
            match updates.find? (fun (u : RaiderUpdates) => u.id = r.id) with
            | some u => mergeRaiderUpdates r u
            | none => r) := by
      simp only [bulkUpdateRaiders]
      split
      · rfl
      · split <;> rfl
    rw [hraiders, List.map_map]
    have hfun : (Raider.id ∘ fun (r : Raider) =>
        match updates.find? (fun (u : RaiderUpdates) => u.id = r.id) with
        | some u => mergeRaiderUpdates r u
        | none => r) = Raider.id := by
      funext r
      exact applyBulk_id updates r
    rw [hfun]
    exact h

theorem uniqueness_preservation_amended_witness :
    allIdsNodup state1 ∧ allIdsNodup (realtimeEvent state1 msg1) ∧
    raider3.id ∉ state1.raiders.map Raider.id ∧
    ((addRaider RemoteResult.ok raider3 state1).raiders.map Raider.id).Nodup ∧
    ((updateRaider RemoteResult.ok (Value.vNum 1) u150 state1).raiders.map Raider.id).Nodup ∧
    ((deleteRaider (RemoteResult.err "boom2") (Value.vNum 1) state1).raiders.map Raider.id).Nodup ∧
    ((bulkUpdateRaiders bulkRemote1 bulkUpdates1 state1).raiders.map Raider.id).Nodup := by
  refine ⟨by decide, ?_, by decide, ?_, ?_, ?_, ?_⟩
  · exact uniqueness_preservation_amended.1 state1 msg1 (by decide)
  · exact uniqueness_preservation_amended.2.2.1 RemoteResult.ok raider3 state1
      (by decide) (by decide)
  · exact uniqueness_preservation_amended.2.2.2.2.2.2.1 RemoteResult.ok (Value.vNum 1)
      u150 state1 (by decide) (by decide)
  · exact uniqueness_preservation_amended.2.2.2.2.2.2.2.2.2.1
      (RemoteResult.err "boom2") (Value.vNum 1) state1 (by decide)
  · exact uniqueness_preservation_amended.2.2.2.2.2.2.2.2.2.2.2
      bulkRemote1 bulkUpdates1 state1 (by decide)

/-! ### Sparse-patch characterization -/

theorem mem_ite_pair (c : Prop) [Decidable c] (k kc : String) (v vc : Value)
    (rest : List (String × Value)) :
    ((k, v) ∈ (if c then [(kc, vc)] else []) ++ rest)
      ↔ ((c ∧ k = kc ∧ v = vc) ∨ (k, v) ∈ rest) := by
  split <;> rename_i hc <;> simp_all [Prod.ext_iff]

theorem mem_ite_pair_nil (c : Prop) [Decidable c] (k kc : String) (v vc : Value) :
    ((k, v) ∈ (if c then [(kc, vc)] else [])) ↔ (c ∧ k = kc ∧ v = vc) := by
  split <;> rename_i hc <;> simp_all [Prod.ext_iff]

set_option maxHeartbeats 1000000 in
/-- Claim C10: each field-level update transmits exactly the defined
fields of its payload that lie in the operation's fixed column set —
`updateRaider`: name, class, rank, dkp, raid_count; `updateRaid`:
bosses_killed, prog_bosses, participants, dkp_awarded;
`updateScheduledRaid`: raid_type, date_time, note, roster.  A defined
`createdAt` is shallow-merged into the local record but never appears in
the raider patch. -/
theorem sparse_patch_exact_fields (u : RaiderUpdates) (w : RaidUpdates)
    (z : ScheduledUpdates) (r : Raider) :
    (∀ k v, (k, v) ∈ raiderDbUpdates u ↔
      (v ≠ Value.undef ∧ ((k = "name" ∧ v = u.name) ∨ (k = "class" ∧ v = u.«class») ∨
        (k = "rank" ∧ v = u.rank) ∨ (k = "dkp" ∧ v = u.dkp) ∨
        (k = "raid_count" ∧ v = u.raidCount)))) ∧
    (∀ v, ("created_at", v) ∉ raiderDbUpdates u) ∧
    (u.createdAt ≠ Value.undef → (mergeRaiderUpdates r u).createdAt = u.createdAt) ∧
    (∀ k v, (k, v) ∈ raidDbUpdates w ↔
      (v ≠ Value.undef ∧ ((k = "bosses_killed" ∧ v = w.bossesKilled) ∨
        (k = "prog_bosses" ∧ v = w.progBosses) ∨ (k = "participants" ∧ v = w.participants) ∨
        (k = "dkp_awarded" ∧ v = w.dkpAwarded)))) ∧
    (∀ k v, (k, v) ∈ scheduledDbUpdates z ↔
      (v ≠ Value.undef ∧ ((k = "raid_type" ∧ v = z.raidType) ∨
        (k = "date_time" ∧ v = z.dateTime) ∨ (k = "note" ∧ v = z.notes) ∨
        (k = "roster" ∧ v = z.roster)))) := by
  refine ⟨?_, ?_, ?_, ?_, ?_⟩
  · intro k v
    simp only [raiderDbUpdates, List.append_assoc, mem_ite_pair, mem_ite_pair_nil]
    constructor
    · rintro (⟨hd, hk, hv⟩ | ⟨hd, hk, hv⟩ | ⟨hd, hk, hv⟩ | ⟨hd, hk, hv⟩ | ⟨hd, hk, hv⟩) <;>
        subst hv <;> exact ⟨hd, by tauto⟩
    · rintro ⟨hd, (⟨hk, hv⟩ | ⟨hk, hv⟩ | ⟨hk, hv⟩ | ⟨hk, hv⟩ | ⟨hk, hv⟩)⟩ <;>
        subst hv <;> tauto
  · intro v hmem
    simp only [raiderDbUpdates, List.append_assoc, mem_ite_pair, mem_ite_pair_nil] at hmem
    rcases hmem with ⟨_, hk, _⟩ | ⟨_, hk, _⟩ | ⟨_, hk, _⟩ | ⟨_, hk, _⟩ | ⟨_, hk, _⟩ <;>
      simp at hk
  · intro hd
    simp [mergeRaiderUpdates, spreadField, hd]
  · intro k v
    simp only [raidDbUpdates, List.append_assoc, mem_ite_pair, mem_ite_pair_nil]
    constructor
    · rintro (⟨hd, hk, hv⟩ | ⟨hd, hk, hv⟩ | ⟨hd, hk, hv⟩ | ⟨hd, hk, hv⟩) <;>
        subst hv <;> exact ⟨hd, by tauto⟩
    · rintro ⟨hd, (⟨hk, hv⟩ | ⟨hk, hv⟩ | ⟨hk, hv⟩ | ⟨hk, hv⟩)⟩ <;>
        subst hv <;> tauto
  · intro k v
    simp only [scheduledDbUpdates, List.append_assoc, mem_ite_pair, mem_ite_pair_nil]
    constructor
    · rintro (⟨hd, hk, hv⟩ | ⟨hd, hk, hv⟩ | ⟨hd, hk, hv⟩ | ⟨hd, hk, hv⟩) <;>
        subst hv <;> exact ⟨hd, by tauto⟩
    · rintro ⟨hd, (⟨hk, hv⟩ | ⟨hk, hv⟩ | ⟨hk, hv⟩ | ⟨hk, hv⟩)⟩ <;>
        subst hv <;> tauto

/-- An update payload defining `dkp` and `createdAt`. -/
def uC10 : RaiderUpdates := { dkp := .vNum 60, createdAt := .vStr "2020-01-01" }

theorem sparse_patch_exact_fields_witness :
    ("dkp", Value.vNum 60) ∈ raiderDbUpdates uC10 ∧
    (∀ v, ("created_at", v) ∉ raiderDbUpdates uC10) ∧
    uC10.createdAt ≠ Value.undef ∧
    (mergeRaiderUpdates raider1 uC10).createdAt = Value.vStr "2020-01-01" ∧
    raiderDbUpdates uC10 = [("dkp", Value.vNum 60)] := by
  have h := sparse_patch_exact_fields uC10 {} {} raider1
  refine ⟨?_, h.2.1, by decide, ?_, by decide⟩
  · exact (h.1 "dkp" (Value.vNum 60)).mpr ⟨by decide, by tauto⟩
  · exact h.2.2.1 (by decide)

end Sunken
